import Mathlib

/-!
# line-sticker-downloader: a shallow embedding of `main.go` and `util/util.go`

The development embeds

* `patterns`, `NewBot` (the regexp part) and `findStickerID` of `main.go`,
* `Download`, `execCmd`, `Exec`, `ExecDir` of `util/util.go`,
* `processSticker` of `main.go`,

and states the properties of the repackaging pipeline over that embedding.

Modelling conventions.

* Go strings are Lean strings; `sort.Strings` orders them by `<` on strings, which for
  UTF-8 text is the lexicographic order of the code points (`lessChars`).
* The file system is seen through the three kinds of path `processSticker` builds from an
  identifier: the export archive `/tmp/line-stickers-export/<id>.zip`, the raw bundle file
  `/tmp/<id>-raw.zip` and the working directory `/tmp/<id>`.  Paths are compared as strings;
  identifiers and display names are taken to be plain path components (LINE package ids are
  digit strings), so the three kinds of path never alias.
* Whatever the program cannot decide itself (the network, the permission bits, the bytes of
  the bundle, whether a process can be started) is an oracle in `Env`.
* A Go function can end in three ways: it returns, it panics (deferred functions run, the
  panic then propagates to the caller), or `log.Fatalf` calls `os.Exit(1)` (the process ends
  at once, deferred functions do not run).
-/

namespace LineSticker

/-! ## Strings and sorting -/

/-- Strict lexicographic comparison of two character sequences, Go's `<` on strings. -/
def lessChars : List Char → List Char → Bool
  | [], [] => false
  | [], _ :: _ => true
  | _ :: _, [] => false
  | a :: as, b :: bs =>
    if a.toNat < b.toNat then true
    else if b.toNat < a.toNat then false
    else lessChars as bs

/-- The relation `a ≤ b` on Go strings, that is `!(b < a)`. -/
def strLE (a b : String) : Prop := lessChars b.toList a.toList = false

instance strLE.decidable : DecidableRel strLE := fun a b =>
  inferInstanceAs (Decidable (lessChars b.toList a.toList = false))

/-- Model of `sort.Strings(names)`: the ascending arrangement of `names`. -/
def sortStrings (names : List String) : List String :=
  names.insertionSort strLE

/-- Go's slice expression `l[start:stop]`; `none` stands for the run-time panic
"slice bounds out of range". -/
def goSlice {α : Type} (l : List α) (start stop : Nat) : Option (List α) :=
  if start ≤ stop ∧ stop ≤ l.length then some ((l.take stop).drop start) else none

/-! ## The batching arithmetic of `processSticker` (main.go 233-253) -/

/-- Line 234: `n := (len(names) + 19) / 20`. -/
def batchCount (len : Nat) : Nat := (len + 19) / 20

/-- Lines 236-239: `dirname := fmt.Sprintf("%s (%d:%d)", stickerName, i+1, n)`, replaced by
`stickerName` when `n == 1`. -/
def batchDirname (stickerName : String) (i n : Nat) : String :=
  if n = 1 then stickerName
  else stickerName ++ " (" ++ toString (i + 1) ++ ":" ++ toString n ++ ")"

/-- Line 244: `start := i * 20`. -/
def batchStart (i : Nat) : Nat := i * 20

/-- Lines 245-248: `end := (i + 1) * 20`, clipped to `len(names)`. -/
def batchEnd (len i : Nat) : Nat :=
  if (i + 1) * 20 > len then len else (i + 1) * 20

/-- The file names handed to the `mv` of iteration `i`: `names[start:end]` (line 250). -/
def batchNames (names : List String) (i : Nat) : Option (List String) :=
  goSlice names (batchStart i) (batchEnd names.length i)

/-! ## `patterns` and `findStickerID` (main.go 23-28, 41-48, 118-127) -/

/-- Lines 24-27: the two pattern sources. -/
def patterns : List String :=
  ["https://line.me/S/sticker/(\\d+)/",
   "https://store.line.me/stickershop/product/(\\d+)/"]

/-- One instruction of a compiled pattern, for the regexp syntax that occurs in `patterns`. -/
inductive Inst
  | char (c : Char)
  | anyCharNotNL
  | digits
deriving DecidableEq

/-- Model of `regexp.Compile` on the syntax used by `patterns`: `.` is the wildcard for any
character but a newline, `(\d+)` is the capturing group of one or more ASCII digits, every
other character stands for itself. -/
def compile : List Char → List Inst
  | [] => []
  | '.' :: rest => Inst.anyCharNotNL :: compile rest
  | '(' :: '\\' :: 'd' :: '+' :: ')' :: rest => Inst.digits :: compile rest
  | c :: rest => Inst.char c :: compile rest

/-- The class `\d` of Go regexps: the ASCII digits. -/
def isDigit (c : Char) : Bool := decide (48 ≤ c.toNat ∧ c.toNat ≤ 57)

/-- Match a compiled pattern at the start of `s`; the result is the text of the capturing
group. The group is greedy: the longest digit run is tried first, then shorter ones. -/
def matchHere : List Inst → List Char → List Char → Option (List Char)
  | [], _, cap => some cap
  | Inst.char _ :: _, [], _ => none
  | Inst.char c :: is, x :: xs, cap => if x = c then matchHere is xs cap else none
  | Inst.anyCharNotNL :: _, [], _ => none
  | Inst.anyCharNotNL :: is, x :: xs, cap => if x = '\n' then none else matchHere is xs cap
  | Inst.digits :: is, s, _ =>
    (List.range (s.takeWhile isDigit).length).reverse.findSome?
      (fun k => matchHere is (s.drop (k + 1)) (s.take (k + 1)))

/-- Model of `regex.FindStringSubmatch(text)` followed by `matches[1]`: the capture of the
leftmost match, `none` when `matches == nil`. -/
def findSubmatch (re : List Inst) : List Char → Option (List Char)
  | [] => matchHere re [] []
  | x :: xs =>
    match matchHere re (x :: xs) [] with
    | some cap => some cap
    | none => findSubmatch re xs

/-- The part of `Bot` the pipeline uses (the LINE client is left out). -/
structure Bot where
  host : String
  regexps : List (List Inst)

/-- Lines 41-49 of `NewBot`: every pattern is compiled, in list order. -/
def NewBot (host : String) : Bot :=
  { host := host, regexps := patterns.map (fun p => compile p.toList) }

/-- The loop of `findStickerID` over `bot.regexps`. -/
def findIn : List (List Inst) → String → String
  | [], _ => ""
  | re :: rest, text =>
    match findSubmatch re text.toList with
    | none => findIn rest text
    | some cap => String.mk cap

/-- Lines 118-127. -/
def findStickerID (bot : Bot) (text : String) : String :=
  findIn bot.regexps text

/-- The spec's reading of an URL shape: the text holds the literal `lit`, at least one ASCII
digit and a slash, one right after the other. -/
def containsShape (lit : String) (text : String) : Bool :=
  text.toList.tails.any (fun t =>
    lit.toList.isPrefixOf t &&
      (let r := t.drop lit.length
       let d := r.takeWhile isDigit
       !d.isEmpty && (r.drop d.length).head? == some '/'))

/-! ## The world: file system, environment, effects -/

/-- Lines 19-21. -/
def targetExportDir : String := "/tmp/line-stickers-export"

/-- An entry of a directory: a regular file with its bytes, or a sub-directory with the
names of what it holds. -/
inductive Entry
  | file (name : String) (content : String)
  | dir (name : String) (members : List String)
deriving DecidableEq

/-- The name of an entry. -/
def Entry.name : Entry → String
  | Entry.file n _ => n
  | Entry.dir n _ => n

/-- Whether an entry is a regular file. -/
def Entry.isFile : Entry → Bool
  | Entry.file _ _ => true
  | Entry.dir _ _ => false

/-- The file system, by kind of path: `exports p` is the tree packed in the archive at path
`p` of the export directory, `files p` the bytes of the scratch file at `p`, `dirs p` the
listing of the working directory at `p`; `none` means that the path does not exist. -/
structure World where
  exports : String → Option (List Entry)
  files : String → Option String
  dirs : String → Option (List Entry)

/-- What `http.Get` and the following `io.Copy` do for an URL. -/
inductive HttpResult
  | failed
  | response (status : Nat) (body : String) (copyFails : Bool)

/-- What can go wrong around a child process in `execCmd`, apart from its exit status:
`pipe` is an error of `cmd.StderrPipe`, `start` of `cmd.Start`, `read` of reading its
standard error. -/
inductive Fault
  | none
  | pipe
  | start
  | read
deriving DecidableEq

/-- A Go `map[string]string`, as the list of its key/value pairs. -/
abbrev TitleMap := List (String × String)

/-- The environment of a run: every answer the program gets from outside. -/
structure Env where
  /-- Whether `os.Create(path)` returns an error. -/
  createFails : String → Bool
  /-- The outcome of `http.Get(url)`. -/
  httpGet : String → HttpResult
  /-- Whether `os.Mkdir(path)` fails for a reason other than "already exists". -/
  mkdirFails : String → Bool
  /-- Faults of the child process for a command line. -/
  fault : String → List String → Fault
  /-- Whether the tool exits with a non-zero status for a reason of its own
  (permissions, full disk, damaged input). -/
  exitFails : String → List String → Bool
  /-- What `unzip` makes of the bundle bytes in a directory with the given listing:
  exit status zero or not, and the listing afterwards. -/
  unzip : String → List Entry → Bool × List Entry
  /-- Whether `ioutil.ReadFile(path)` fails although the file is there. -/
  readFails : String → Bool
  /-- The function `json.Unmarshal` into `struct { Title map[string]string }`:
  `none` is a returned error, `some t` the decoded `Title`. -/
  unmarshal : String → Option TitleMap
  /-- Whether `os.Open(path)` of an existing directory fails. -/
  openFails : String → Bool
  /-- Whether `dir.Readdirnames(0)` fails. -/
  readdirFails : String → Bool

/-- The effects a run performs, in order. -/
inductive Action
  | download (filepath url : String)
  | mkdir (path : String)
  | exec (name : String) (args : List String)
  | execDir (dir name : String) (args : List String)
  | run (name : String) (args : List String)
deriving DecidableEq

/-- The errors `processSticker` builds with `fmt.Errorf`. -/
inductive PipelineError
  | download
  | internal
  | unzip
  | zip
deriving DecidableEq

/-- The text of each error (`err.Error()`). -/
def PipelineError.Error : PipelineError → String
  | PipelineError.download => "stickers cant be downloaded"
  | PipelineError.internal => "internal error"
  | PipelineError.unzip => "stickers cant be unzipped"
  | PipelineError.zip => "stickers cant be zipped"

/-- The ways a function stops without returning. -/
inductive Abort
  | panic
  | exit
deriving DecidableEq

/-- How `processSticker` ends: it returns `nil` or an error to its caller, it panics, or the
process is ended by `os.Exit(1)`. -/
inductive Outcome
  | returned (err : Option PipelineError)
  | panicked
  | exited
deriving DecidableEq

/-- The state threaded through a run: the file system and the effects so far. -/
structure St where
  world : World
  trace : List Action

/-- The result of a step: a value and the next state, or an abort. -/
inductive Step (α : Type)
  | next (a : α) (s : St)
  | halt (o : Abort) (s : St)

/-- Computations of the embedding. -/
def M (α : Type) : Type := St → Step α

instance M.monad : Monad M where
  pure a := fun s => Step.next a s
  bind m f := fun s =>
    match m s with
    | Step.next a s1 => f a s1
    | Step.halt o s1 => Step.halt o s1

/-- Stop with a panic or an exit. -/
def halt {α : Type} (o : Abort) : M α := fun s => Step.halt o s

/-- Read the file system. -/
def getWorld : M World := fun s => Step.next s.world s

/-! ## `util/util.go` -/

/-- Lines 13-36 of util.go. The result is `true` when `Download` returns an error. The
file is created (truncated) before the request is sent; when the copy fails the file keeps
what `os.Create` left. -/
def Download (env : Env) (filepath url : String) : M Bool := fun s =>
  let t := s.trace ++ [Action.download filepath url]
  let w := s.world
  if env.createFails filepath then
    Step.next true { world := w, trace := t }
  else
    let created : World := { w with files := Function.update w.files filepath (some "") }
    match env.httpGet url with
    | HttpResult.failed => Step.next true { world := created, trace := t }
    | HttpResult.response status body copyFails =>
      if status ≠ 200 then
        Step.next true { world := created, trace := t }
      else if copyFails then
        Step.next true { world := created, trace := t }
      else
        Step.next false
          { world := { w with files := Function.update w.files filepath (some body) },
            trace := t }

/-- Lines 38-58 of util.go. `tool` is what the started process does to the file system,
with its exit status (`true` for status zero). The result is `true` when `execCmd` returns
an error; the two `log.Fatalf` end the process. -/
def execCmd (f : Fault) (tool : World → Bool × World) : M Bool := fun s =>
  match f with
  | Fault.pipe => Step.next true s
  | Fault.start => Step.halt Abort.exit s
  | Fault.read => Step.halt Abort.exit { s with world := (tool s.world).2 }
  | Fault.none => Step.next (!(tool s.world).1) { s with world := (tool s.world).2 }

/-- The process of a command line: the environment can make it fail before it touches
anything, otherwise it behaves as the tool does. -/
def process (env : Env) (name : String) (args : List String)
    (tool : World → Bool × World) : World → Bool × World :=
  fun w => if env.exitFails name args then (false, w) else tool w

/-- Lines 67-71 of util.go. -/
def Exec (env : Env) (name : String) (args : List String)
    (tool : World → Bool × World) : M Bool := fun s =>
  execCmd (env.fault name args) (process env name args tool)
    { s with trace := s.trace ++ [Action.exec name args] }

/-- Lines 60-65 of util.go. -/
def ExecDir (env : Env) (dir name : String) (args : List String)
    (tool : World → Bool × World) : M Bool := fun s =>
  execCmd (env.fault name args) (process env name args tool)
    { s with trace := s.trace ++ [Action.execDir dir name args] }

/-! ## The tools `processSticker` runs -/

/-- `unzip <raw> -d <target>`. -/
def unzipTool (env : Env) (raw target : String) (w : World) : Bool × World :=
  match w.files raw, w.dirs target with
  | some bytes, some old =>
    let r := env.unzip bytes old
    (r.1, { w with dirs := Function.update w.dirs target (some r.2) })
  | _, _ => (false, w)

/-- One operand of `rm` (no `-r`, no `-f`): a regular file of that name is removed;
a missing operand or a directory is an error. -/
def rmOne (name : String) (acc : Bool × List Entry) : Bool × List Entry :=
  if acc.2.any (fun e => e.isFile && e.name == name) then
    (acc.1, acc.2.filter (fun e => !(e.isFile && e.name == name)))
  else (false, acc.2)

/-- `rm <target>/<name> ...`: the operands are handled from left to right, the exit status
is zero only when every one of them was removed. -/
def rmTool (target : String) (names : List String) (w : World) : Bool × World :=
  match w.dirs target with
  | none => (false, w)
  | some es =>
    let r := names.foldl (fun acc nm => rmOne nm acc) (true, es)
    (r.1, { w with dirs := Function.update w.dirs target (some r.2) })

/-- `mv <target>/<name> ... <target>/<dirname>`: when every source exists and the
destination is a directory, the sources become members of it. -/
def mvTool (target : String) (names : List String) (dirname : String) (w : World) :
    Bool × World :=
  match w.dirs target with
  | none => (false, w)
  | some es =>
    if names.all (fun nm => es.any (fun e => e.name == nm)) &&
        es.any (fun e => !e.isFile && e.name == dirname) then
      let rest := es.filter (fun e => !names.contains e.name)
      let moved := rest.map (fun e =>
        match e with
        | Entry.dir nm ms => if nm = dirname then Entry.dir nm (ms ++ names) else e
        | Entry.file _ _ => e)
      (true, { w with dirs := Function.update w.dirs target (some moved) })
    else (false, w)

/-- `zip <archive> . -r` run in `target`: the archive `<archive>.zip` packs the tree of
the directory. -/
def zipTool (target archive : String) (w : World) : Bool × World :=
  match w.dirs target with
  | none => (false, w)
  | some es =>
    (true, { w with exports := Function.update w.exports (archive ++ ".zip") (some es) })

/-- `rm -r <target> <raw>`: both operands are removed; the exit status is zero only when
both were there. -/
def rmRTool (target raw : String) (w : World) : Bool × World :=
  let w1 : World := { w with dirs := Function.update w.dirs target none }
  ((w.dirs target).isSome && (w.files raw).isSome,
    { w1 with files := Function.update w.files raw none })

/-! ## `processSticker` (main.go 156-264) -/

/-- The three results of `os.Mkdir` the program tells apart: no error, an error for which
`os.IsExist` holds, any other error. -/
inductive MkdirResult
  | ok
  | exist
  | other
deriving DecidableEq

/-- The call `os.Mkdir(target, 0755)` of line 186, for a working directory. -/
def osMkdir (env : Env) (path : String) : M MkdirResult := fun s =>
  let t := s.trace ++ [Action.mkdir path]
  let w := s.world
  if (w.dirs path).isSome then
    Step.next MkdirResult.exist { world := w, trace := t }
  else if env.mkdirFails path then
    Step.next MkdirResult.other { world := w, trace := t }
  else
    Step.next MkdirResult.ok
      { world := { w with dirs := Function.update w.dirs path (some []) }, trace := t }

/-- The call `os.Mkdir(target+"/"+dirname, 0755)` of line 240, inside the working directory.
The result is `true` for an error: the name is taken (also the empty name and the dot
names, which denote existing directories), or the environment refuses. -/
def osMkdirIn (env : Env) (target dirname : String) : M Bool := fun s =>
  let t := s.trace ++ [Action.mkdir (target ++ "/" ++ dirname)]
  let w := s.world
  match w.dirs target with
  | none => Step.next true { world := w, trace := t }
  | some es =>
    if dirname = "" ∨ dirname = "." ∨ dirname = ".." then
      Step.next true { world := w, trace := t }
    else if es.any (fun e => e.name == dirname) then
      Step.next true { world := w, trace := t }
    else if env.mkdirFails (target ++ "/" ++ dirname) then
      Step.next true { world := w, trace := t }
    else
      Step.next false
        { world :=
            { w with dirs := Function.update w.dirs target (some (es ++ [Entry.dir dirname []])) },
          trace := t }

/-- The call `ioutil.ReadFile(target + "/productInfo.meta")`: `none` is an error. -/
def ReadFile (env : Env) (w : World) (dir name : String) : Option String :=
  if env.readFails (dir ++ "/" ++ name) then none
  else
    match w.dirs dir with
    | none => none
    | some es =>
      match es.find? (fun e => e.name == name) with
      | some (Entry.file _ content) => some content
      | _ => none

/-- The call `filepath.Glob(target + "/*key*")`: the names in the working directory that
contain `key`. For a plain identifier the pattern is well formed, so the error of `Glob`
(which line 215 only logs) does not occur. -/
def Glob (w : World) (target : String) : List String :=
  (((w.dirs target).getD []).map Entry.name).filter
    (fun nm => decide ("key".toList <:+: nm.toList))

/-- Lines 195-212, the step that fixes `stickerName`. When `json.Unmarshal` returns an
error, line 205 evaluates `err.Error()` on the error of `ReadFile`, which is `nil` in that
branch: a nil dereference, so the step panics. -/
def readStickerName (env : Env) (id target : String) : M String := do
  let w ← getWorld
  match ReadFile env w target "productInfo.meta" with
  | none => return id
  | some rawMeta =>
    match env.unmarshal rawMeta with
    | none => halt Abort.panic
    | some title =>
      match title.lookup "en" with
      | some name => return name
      | none => return id

/-- Lines 235-258, the loop `for i := 0; i < n; i++`; `k` counts the iterations left.
The result is the error returned from inside the loop, `none` when the loop runs to its
end. -/
def batchLoop (env : Env) (target stickerName : String) (names : List String) (n : Nat) :
    Nat → Nat → M (Option PipelineError)
  | 0, _ => pure none
  | k + 1, i => do
    let dirname := batchDirname stickerName i n
    let e ← osMkdirIn env target dirname
    if e then
      return some PipelineError.internal
    match batchNames names i with
    | none => halt Abort.panic
    | some part =>
      let args := part.map (fun name => target ++ "/" ++ name) ++ [target ++ "/" ++ dirname]
      let e ← Exec env "mv" args (mvTool target part dirname)
      if e then
        return some PipelineError.internal
      batchLoop env target stickerName names n k (i + 1)

/-- Lines 179-263, the body of `processSticker` after the check for an existing archive.
The value is the error the function returns (`none` for `nil`).

* Lines 225-232: `os.Open` and `Readdirnames` end the process through `log.Fatalf`.
* Line 260: when `zip` fails, the arguments of `log.Printf` are evaluated first, and
  `err.Error()` is called on the error of `Readdirnames`, which is `nil` here: the function
  panics before it reaches `return fmt.Errorf("stickers cant be zipped")`. -/
def pipeline (env : Env) (id target rawFilename : String) : M (Option PipelineError) := do
  let err ← Download env rawFilename
    ("http://dl.stickershop.line.naver.jp/products/0/0/1/" ++ id ++ "/iphone/stickers@2x.zip")
  if err then
    return some PipelineError.download
  let e ← osMkdir env target
  if e = MkdirResult.other then
    return some PipelineError.internal
  let e ← Exec env "unzip" [rawFilename, "-d", target] (unzipTool env rawFilename target)
  if e then
    return some PipelineError.unzip
  let stickerName ← readStickerName env id target
  let w ← getWorld
  let found := Glob w target
  let files := found.map (fun name => target ++ "/" ++ name) ++
    [target ++ "/productInfo.meta", target ++ "/tab_off@2x.png", target ++ "/tab_on@2x.png"]
  let e ← Exec env "rm" files
    (rmTool target (found ++ ["productInfo.meta", "tab_off@2x.png", "tab_on@2x.png"]))
  if e then
    return some PipelineError.internal
  let w ← getWorld
  match w.dirs target with
  | none => halt Abort.exit
  | some es =>
    if env.openFails target then
      halt Abort.exit
    else if env.readdirFails target then
      halt Abort.exit
    else
      let names := sortStrings (es.map Entry.name)
      let n := batchCount names.length
      let r ← batchLoop env target stickerName names n n 0
      match r with
      | some e => return some e
      | none =>
        let e ← ExecDir env target "zip" [targetExportDir ++ "/" ++ id, ".", "-r"]
          (zipTool target (targetExportDir ++ "/" ++ id))
        if e then
          halt Abort.panic
        return none

/-- The deferred function of lines 172-177, `exec.Command("rm", "-r", target,
rawFilename).Run()`; its error is only logged. -/
def cleanup (env : Env) (target rawFilename : String) (s : St) : St :=
  let args := ["-r", target, rawFilename]
  let s1 : St := { s with trace := s.trace ++ [Action.run "rm" args] }
  match env.fault "rm" args with
  | Fault.start => s1
  | _ => { s1 with world := (process env "rm" args (rmRTool target rawFilename) s.world).2 }

/-- A finished call of `processSticker`: how it ended, the file system it leaves, the
effects it performed. -/
structure Run where
  outcome : Outcome
  world : World
  trace : List Action

/-- Lines 156-264. The deferred clean-up runs when the body returns or panics, and does not
run when the process exits. -/
def processSticker (env : Env) (id : String) (w : World) : Run :=
  let targetExport := targetExportDir ++ "/" ++ id ++ ".zip"
  if (w.exports targetExport).isSome then
    { outcome := Outcome.returned none, world := w, trace := [] }
  else
    let target := "/tmp/" ++ id
    let rawFilename := "/tmp/" ++ id ++ "-raw.zip"
    match pipeline env id target rawFilename { world := w, trace := [] } with
    | Step.next err s =>
      let s1 := cleanup env target rawFilename s
      { outcome := Outcome.returned err, world := s1.world, trace := s1.trace }
    | Step.halt Abort.panic s =>
      let s1 := cleanup env target rawFilename s
      { outcome := Outcome.panicked, world := s1.world, trace := s1.trace }
    | Step.halt Abort.exit s =>
      { outcome := Outcome.exited, world := s.world, trace := s.trace }

/-! ## Sample environments -/

/-- A file system with nothing in it. -/
def emptyWorld : World :=
  { exports := fun _ => none, files := fun _ => none, dirs := fun _ => none }

/-- A stand-in for `json.Unmarshal` on the metadata files used below: the object whose
title map has the English entry `Foo`, the empty object (no title), and, for any other text,
the error it returns for the text `not json`. -/
def sampleUnmarshal (bytes : String) : Option TitleMap :=
  if bytes = "\x7b\"title\":\x7b\"en\":\"Foo\"\x7d\x7d" then some [("en", "Foo")]
  else if bytes = "\x7b\x7d" then some []
  else none

/-- An environment without faults: the server answers 200 and `unzip` adds the entries of
`bundle` to the working directory. -/
def sampleEnv (bundle : List Entry) : Env :=
  { createFails := fun _ => false
    httpGet := fun _ => HttpResult.response 200 "PK" false
    mkdirFails := fun _ => false
    fault := fun _ _ => Fault.none
    exitFails := fun _ _ => false
    unzip := fun _ old => (true, old ++ bundle)
    readFails := fun _ => false
    unmarshal := sampleUnmarshal
    openFails := fun _ => false
    readdirFails := fun _ => false }

/-- A well-formed bundle: metadata with an English title, the two tab icons, a key file and
three stickers. -/
def sampleBundle : List Entry :=
  [Entry.file "productInfo.meta" "\x7b\"title\":\x7b\"en\":\"Foo\"\x7d\x7d",
   Entry.file "tab_off@2x.png" "", Entry.file "tab_on@2x.png" "",
   Entry.file "2_key@2x.png" "", Entry.file "3@2x.png" "", Entry.file "1@2x.png" "",
   Entry.file "2@2x.png" ""]

/-- A file system whose only content is the export archive of identifier `1`. -/
def archivedWorld : World :=
  { emptyWorld with
    exports := fun p => if p = "/tmp/line-stickers-export/1.zip" then some [] else none }

/-- The server answers 404. -/
def notFoundEnv : Env :=
  { sampleEnv sampleBundle with httpGet := fun _ => HttpResult.response 404 "" false }

/-- The bundle is damaged: `unzip` exits with a non-zero status and extracts nothing. -/
def corruptEnv : Env :=
  { sampleEnv sampleBundle with unzip := fun _ old => (false, old) }

/-- A bundle whose metadata file is not JSON. -/
def malformedBundle : List Entry :=
  [Entry.file "productInfo.meta" "not json",
   Entry.file "tab_off@2x.png" "", Entry.file "tab_on@2x.png" "",
   Entry.file "1@2x.png" ""]

/-- A bundle without metadata file. -/
def noMetaBundle : List Entry :=
  [Entry.file "tab_off@2x.png" "", Entry.file "tab_on@2x.png" "", Entry.file "1@2x.png" ""]

/-- The `unzip` program cannot be started. -/
def noUnzipEnv : Env :=
  { sampleEnv sampleBundle with
    fault := fun name _ => if name = "unzip" then Fault.start else Fault.none }

/-- The standard error of `unzip` cannot be read to its end. -/
def unzipUnreadableEnv : Env :=
  { sampleEnv sampleBundle with
    fault := fun name _ => if name = "unzip" then Fault.read else Fault.none }

/-- The `zip` program exits with a non-zero status. -/
def zipFailsEnv : Env :=
  { sampleEnv sampleBundle with exitFails := fun name _ => decide (name = "zip") }

/-- A file system whose only content is the working directory of identifier `1`. -/
def workWorld (es : List Entry) : World :=
  { emptyWorld with dirs := fun p => if p = "/tmp/1" then some es else none }

/-- Twenty-five sticker names, `10.png` to `34.png`. -/
def names25 : List String :=
  (List.range 25).map (fun k => toString (k + 10) ++ ".png")

/-- A bundle with twenty-five stickers, the metadata with the title `Foo` and the two tab
icons. -/
def bundle25 : List Entry :=
  [Entry.file "productInfo.meta" "\x7b\"title\":\x7b\"en\":\"Foo\"\x7d\x7d",
   Entry.file "tab_off@2x.png" "", Entry.file "tab_on@2x.png" ""] ++
  names25.map (fun name => Entry.file name "")

theorem lessChars_asymm : ∀ (a b : List Char), lessChars a b = true → lessChars b a = false
  | [], [], _ => by simp [lessChars]
  | [], _ :: _, _ => by simp [lessChars]
  | _ :: _, [], h => by simp [lessChars] at h
  | a :: as, b :: bs, h => by
    simp only [lessChars] at h ⊢
    split_ifs at h ⊢
    all_goals first | omega | (exact lessChars_asymm as bs h) | simp_all

theorem lessChars_le_trans : ∀ (a b c : List Char),
    lessChars b a = false → lessChars c b = false → lessChars c a = false := by
  intro a
  induction a with
  | nil => intro b c h1 h2; cases b <;> cases c <;> simp_all [lessChars]
  | cons x xs ih =>
    intro b c h1 h2
    cases b with
    | nil => cases c <;> simp_all [lessChars]
    | cons y ys =>
      cases c with
      | nil => simp [lessChars] at h2
      | cons z zs =>
        simp only [lessChars] at h1 h2 ⊢
        split_ifs at h1 h2 ⊢
        all_goals first | omega | (exact ih _ _ h1 h2) | simp_all

theorem lessChars_antisymm : ∀ (a b : List Char),
    lessChars a b = false → lessChars b a = false → a = b := by
  intro a
  induction a with
  | nil => intro b h1 h2; cases b <;> simp_all [lessChars]
  | cons x xs ih =>
    intro b h1 h2
    cases b with
    | nil => simp_all [lessChars]
    | cons y ys =>
      simp only [lessChars] at h1 h2
      split_ifs at h1 h2 with h3 h4
      have hn : x.toNat = y.toNat := by omega
      have hxy : x = y := by rw [← Char.ofNat_toNat x, ← Char.ofNat_toNat y, hn]
      rw [hxy, ih ys h1 h2]

instance strLE.isTotal : IsTotal String strLE where
  total a b := by
    unfold strLE
    cases h : lessChars b.toList a.toList
    · exact Or.inl rfl
    · exact Or.inr (lessChars_asymm _ _ h)

instance strLE.isTrans : IsTrans String strLE where
  trans _ _ _ h1 h2 := lessChars_le_trans _ _ _ h1 h2

instance strLE.isAntisymm : IsAntisymm String strLE where
  antisymm a b h1 h2 := by
    unfold strLE at h1 h2
    have := lessChars_antisymm _ _ h2 h1
    exact String.ext this

theorem sortStrings_sorted (names : List String) : List.Sorted strLE (sortStrings names) :=
  List.sorted_insertionSort strLE names

theorem sortStrings_perm (names : List String) : (sortStrings names).Perm names :=
  List.perm_insertionSort strLE names

theorem sortStrings_unique (names out : List String) (hp : out.Perm names)
    (hs : List.Sorted strLE out) : out = sortStrings names :=
  List.eq_of_perm_of_sorted (hp.trans (sortStrings_perm names).symm) hs (sortStrings_sorted names)

/-! ## Lemmas: the batching arithmetic -/

theorem M.bind_apply {α β : Type} (m : M α) (f : α → M β) (s : St) :
    (m >>= f) s = match m s with
      | Step.next a s1 => f a s1
      | Step.halt o s1 => Step.halt o s1 := rfl

theorem M.pure_apply {α : Type} (a : α) (s : St) : (pure a : M α) s = Step.next a s := rfl

theorem osMkdirIn_trace (env : Env) (target dirname : String) (s : St) :
    ∃ e w, osMkdirIn env target dirname s =
      Step.next e { world := w, trace := s.trace ++ [Action.mkdir (target ++ "/" ++ dirname)] } := by
  unfold osMkdirIn
  dsimp only
  split
  · exact ⟨_, _, rfl⟩
  · split_ifs <;> exact ⟨_, _, rfl⟩

theorem Exec_trace (env : Env) (name : String) (args : List String)
    (tool : World → Bool × World) (s : St) :
    (∃ w, Exec env name args tool s =
      Step.halt Abort.exit { world := w, trace := s.trace ++ [Action.exec name args] }) ∨
    (∃ e w, Exec env name args tool s =
      Step.next e { world := w, trace := s.trace ++ [Action.exec name args] }) := by
  unfold Exec execCmd
  cases env.fault name args
  · exact Or.inr ⟨_, _, rfl⟩
  · exact Or.inr ⟨_, _, rfl⟩
  · exact Or.inl ⟨_, rfl⟩
  · exact Or.inl ⟨_, rfl⟩

theorem cleanup_exports (env : Env) (target raw : String) (s : St) :
    (cleanup env target raw s).world.exports = s.world.exports := by
  unfold cleanup process rmRTool
  dsimp only
  split <;> [rfl; (split_ifs <;> rfl)]

theorem cleanup_trace (env : Env) (target raw : String) (s : St) :
    (cleanup env target raw s).trace = s.trace ++ [Action.run "rm" ["-r", target, raw]] := by
  unfold cleanup
  dsimp only
  split <;> rfl

theorem batchLoop_error (env : Env) (target stickerName : String) (names : List String)
    (n : Nat) : ∀ (k i : Nat) (s s1 : St) (e : PipelineError),
      batchLoop env target stickerName names n k i s = Step.next (some e) s1 →
      e = PipelineError.internal := by
  intro k
  induction k with
  | zero =>
    intro i s s1 e h
    simp [batchLoop, M.pure_apply] at h
  | succ k ih =>
    intro i s s1 e h
    rw [batchLoop] at h
    simp only [M.bind_apply] at h
    obtain ⟨b, w, hm⟩ := osMkdirIn_trace env target (batchDirname stickerName i n) s
    rw [hm] at h
    cases b with
    | true =>
      simp only [if_true, M.pure_apply, Step.next.injEq, Option.some.injEq] at h
      exact h.1.symm
    | false =>
      simp only [Bool.false_eq_true, if_false, M.bind_apply, M.pure_apply] at h
      cases hpart : batchNames names i with
      | none => simp [hpart, halt] at h
      | some part =>
        simp only [hpart] at h
        rcases Exec_trace env "mv" (part.map (fun name => target ++ "/" ++ name) ++
            [target ++ "/" ++ batchDirname stickerName i n])
          (mvTool target part (batchDirname stickerName i n))
          { world := w, trace := s.trace ++
            [Action.mkdir (target ++ "/" ++ batchDirname stickerName i n)] } with ⟨w2, hx⟩ | ⟨b2, w2, hx⟩
        · rw [M.bind_apply, hx] at h
          simp at h
        · rw [M.bind_apply, hx] at h
          cases b2 with
          | true =>
            simp only [if_true, M.pure_apply, Step.next.injEq, Option.some.injEq] at h
            exact h.1.symm
          | false =>
            simp only [Bool.false_eq_true, if_false, M.bind_apply, M.pure_apply] at h
            exact ih (i + 1) _ s1 e h

theorem bind_never_zip {α : Type} (m : M α) (f : α → M (Option PipelineError)) (s : St)
    (h : ∀ a s2 s1, f a s2 ≠ Step.next (some PipelineError.zip) s1) :
    ∀ s1, (m >>= f) s ≠ Step.next (some PipelineError.zip) s1 := by
  intro s1 hh
  rw [M.bind_apply] at hh
  split at hh
  · exact h _ _ _ hh
  · cases hh

theorem pipeline_never_returns_zip (env : Env) (id target raw : String) (s : St) :
    ∀ s1, pipeline env id target raw s ≠ Step.next (some PipelineError.zip) s1 := by
  unfold pipeline
  refine bind_never_zip _ _ _ (fun err s2 => ?_)
  split
  · intro s1 h; cases h
  refine bind_never_zip _ _ _ (fun _ s2 => ?_)
  refine bind_never_zip _ _ _ (fun e s2 => ?_)
  split
  · intro s1 h; cases h
  refine bind_never_zip _ _ _ (fun _ s2 => ?_)
  refine bind_never_zip _ _ _ (fun e s2 => ?_)
  split
  · intro s1 h; cases h
  refine bind_never_zip _ _ _ (fun _ s2 => ?_)
  refine bind_never_zip _ _ _ (fun stickerName s2 => ?_)
  refine bind_never_zip _ _ _ (fun w s2 => ?_)
  refine bind_never_zip _ _ _ (fun e s2 => ?_)
  split
  · intro s1 h; cases h
  refine bind_never_zip _ _ _ (fun _ s2 => ?_)
  refine bind_never_zip _ _ _ (fun w s2 => ?_)
  cases hdir : w.dirs target with
  | none => intro s1 h; simp [halt] at h
  | some es =>
  dsimp only
  split
  · intro s1 h; simp [halt] at h
  split
  · intro s1 h; simp [halt] at h
  intro s1 h
  rw [M.bind_apply] at h
  split at h
  · rename_i r s3 hloop
    cases r with
    | some e =>
      have he := batchLoop_error _ _ _ _ _ _ _ _ _ _ hloop
      subst he
      cases h
    | none =>
      revert h
      refine bind_never_zip _ _ _ (fun e s2 => ?_) s1
      split
      · intro s1 h
        simp [M.bind_apply, halt] at h
      · intro s1 h; cases h
  · cases h

theorem processSticker_never_returns_zip_error (env : Env) (id : String) (w : World) :
    (processSticker env id w).outcome ≠ Outcome.returned (some PipelineError.zip) := by
  unfold processSticker
  dsimp only
  split_ifs
  · simp
  · split
    · rename_i err s hp
      intro h
      simp only [Outcome.returned.injEq] at h
      subst h
      exact pipeline_never_returns_zip env id _ _ _ _ hp
    · simp
    · simp

/-! ## The claims -/

/-- The whole pipeline on the bundle of twenty-five stickers: one export archive with the two
batch directories as its top-level folders, and no scratch path left. -/
theorem processSticker_twenty_five_files :
    (processSticker (sampleEnv bundle25) "1" emptyWorld).outcome = Outcome.returned none ∧
    (processSticker (sampleEnv bundle25) "1" emptyWorld).world.exports
        "/tmp/line-stickers-export/1.zip" =
      some [Entry.dir "Foo (1:2)" ((List.range 20).map (fun k => toString (k + 10) ++ ".png")),
            Entry.dir "Foo (2:2)" ((List.range 5).map (fun k => toString (k + 30) ++ ".png"))] ∧
    (processSticker (sampleEnv bundle25) "1" emptyWorld).world.files "/tmp/1-raw.zip" = none ∧
    (processSticker (sampleEnv bundle25) "1" emptyWorld).world.dirs "/tmp/1" = none := by
  decide

/-- C3 (the code departs from the claim). What the step that fixes the display name does
for identifier `1` on four metadata files: an English title `Foo` gives `Foo`; no metadata
file gives the identifier; an object without title gives the identifier; but a file that
is not JSON gives no display name at all, the step panics at line 205. -/
theorem readStickerName_cases :
    readStickerName (sampleEnv []) "1" "/tmp/1" { world := workWorld sampleBundle, trace := [] }
      = Step.next "Foo" { world := workWorld sampleBundle, trace := [] } ∧
    readStickerName (sampleEnv []) "1" "/tmp/1" { world := workWorld noMetaBundle, trace := [] }
      = Step.next "1" { world := workWorld noMetaBundle, trace := [] } ∧
    readStickerName (sampleEnv []) "1" "/tmp/1"
        { world := workWorld [Entry.file "productInfo.meta" "\x7b\x7d"], trace := [] }
      = Step.next "1" { world := workWorld [Entry.file "productInfo.meta" "\x7b\x7d"], trace := [] } ∧
    sampleUnmarshal "not json" = none ∧
    readStickerName (sampleEnv []) "1" "/tmp/1" { world := workWorld malformedBundle, trace := [] }
      = Step.halt Abort.panic { world := workWorld malformedBundle, trace := [] } :=
  ⟨rfl, rfl, rfl, rfl, rfl⟩

/-- C4 (the code departs from the claim). A bundle that downloads and unpacks and whose
`productInfo.meta` is not JSON: `processSticker` panics in the metadata step; the content
filter (the `rm` of line 219) is never reached, the only effect after `unzip` is the
deferred clean-up. -/
theorem processSticker_malformed_metadata_panics :
    (processSticker (sampleEnv malformedBundle) "1" emptyWorld).outcome = Outcome.panicked ∧
    (processSticker (sampleEnv malformedBundle) "1" emptyWorld).trace =
      [Action.download "/tmp/1-raw.zip"
        "http://dl.stickershop.line.naver.jp/products/0/0/1/1/iphone/stickers@2x.zip",
       Action.mkdir "/tmp/1",
       Action.exec "unzip" ["/tmp/1-raw.zip", "-d", "/tmp/1"],
       Action.run "rm" ["-r", "/tmp/1", "/tmp/1-raw.zip"]] := by
  decide

/-- C5. When the export archive `<exportDir>/<id>.zip` exists, `processSticker` returns `nil`,
performs no effect at all (no download, no `os.Mkdir`, no command) and leaves the file system
as it was; a second call on the resulting file system does the same. -/
theorem processSticker_existing_archive (env : Env) (id : String) (w : World)
    (h : (w.exports (targetExportDir ++ "/" ++ id ++ ".zip")).isSome = true) :
    (processSticker env id w).outcome = Outcome.returned none ∧
    (processSticker env id w).trace = [] ∧
    (processSticker env id w).world = w ∧
    (processSticker env id (processSticker env id w).world).outcome = Outcome.returned none ∧
    (processSticker env id (processSticker env id w).world).trace = [] ∧
    (processSticker env id (processSticker env id w).world).world = w := by
  have h1 : processSticker env id w =
      { outcome := Outcome.returned none, world := w, trace := [] } := by
    unfold processSticker
    simp only [h, if_true]
  rw [h1]
  simp only [h1, and_self]

theorem processSticker_existing_archive_witness :
    (processSticker (sampleEnv sampleBundle) "1" archivedWorld).outcome = Outcome.returned none ∧
    (processSticker (sampleEnv sampleBundle) "1" archivedWorld).trace = [] ∧
    (processSticker (sampleEnv sampleBundle) "1" archivedWorld).world = archivedWorld ∧
    (processSticker (sampleEnv sampleBundle) "1"
      (processSticker (sampleEnv sampleBundle) "1" archivedWorld).world).outcome
        = Outcome.returned none ∧
    (processSticker (sampleEnv sampleBundle) "1"
      (processSticker (sampleEnv sampleBundle) "1" archivedWorld).world).trace = [] ∧
    (processSticker (sampleEnv sampleBundle) "1"
      (processSticker (sampleEnv sampleBundle) "1" archivedWorld).world).world = archivedWorld :=
  processSticker_existing_archive (sampleEnv sampleBundle) "1" archivedWorld (by decide)

/-- C6 (the code departs from the claim). On a host where `unzip` cannot be started,
`execCmd` ends the process with `log.Fatalf`: the deferred clean-up is not among the effects
and both the raw bundle file and the working directory are still there. In general a run
that does not find the archive either ends with `os.Exit` or has the clean-up as its last
effect. -/
theorem processSticker_exit_skips_cleanup :
    ((processSticker noUnzipEnv "1" emptyWorld).outcome = Outcome.exited ∧
      (processSticker noUnzipEnv "1" emptyWorld).trace =
        [Action.download "/tmp/1-raw.zip"
          "http://dl.stickershop.line.naver.jp/products/0/0/1/1/iphone/stickers@2x.zip",
         Action.mkdir "/tmp/1",
         Action.exec "unzip" ["/tmp/1-raw.zip", "-d", "/tmp/1"]] ∧
      (processSticker noUnzipEnv "1" emptyWorld).world.files "/tmp/1-raw.zip" = some "PK" ∧
      (processSticker noUnzipEnv "1" emptyWorld).world.dirs "/tmp/1" = some []) ∧
    (∀ (env : Env) (id : String) (w : World),
      (w.exports (targetExportDir ++ "/" ++ id ++ ".zip")).isSome = true ∨
      (processSticker env id w).outcome = Outcome.exited ∨
      ∃ t, (processSticker env id w).trace =
        t ++ [Action.run "rm" ["-r", "/tmp/" ++ id, "/tmp/" ++ id ++ "-raw.zip"]]) := by
  refine ⟨by decide, fun env id w => ?_⟩
  by_cases h : (w.exports (targetExportDir ++ "/" ++ id ++ ".zip")).isSome = true
  · exact Or.inl h
  · right
    unfold processSticker
    dsimp only
    rw [if_neg h]
    split
    · exact Or.inr ⟨_, cleanup_trace _ _ _ _⟩
    · exact Or.inr ⟨_, cleanup_trace _ _ _ _⟩
    · exact Or.inl rfl

/-- The failures of the first two stages that `processSticker` does return, for an
identifier without export archive. (1) When the fetch fails, because the raw file cannot be
created, the request fails, the status is not 200 or the copy fails, then `processSticker`
returns the error "stickers cant be downloaded", its only effects are the download attempt
and the deferred clean-up, and the export directory is unchanged. (2) When the fetch
succeeds, the working directory is there or can be made, and `util.Exec` returns an error
for `unzip` (its pipe cannot be set up, or it exits with a non-zero status), then
`processSticker` returns the error "stickers cant be unzipped", its effects are the
download, the `os.Mkdir`, the `unzip` and the clean-up, and the export directory is
unchanged. The two faults of `unzip` left out here end in `log.Fatalf`. -/
theorem returned_fetch_or_unpack_failure (env : Env) (id : String) (w : World)
    (hnew : w.exports (targetExportDir ++ "/" ++ id ++ ".zip") = none) :
    ((env.createFails ("/tmp/" ++ id ++ "-raw.zip") = true ∨
      env.httpGet ("http://dl.stickershop.line.naver.jp/products/0/0/1/" ++ id ++
        "/iphone/stickers@2x.zip") = HttpResult.failed ∨
      (∃ status body copyFails,
        env.httpGet ("http://dl.stickershop.line.naver.jp/products/0/0/1/" ++ id ++
          "/iphone/stickers@2x.zip") = HttpResult.response status body copyFails ∧
        (status ≠ 200 ∨ copyFails = true))) →
      (processSticker env id w).outcome = Outcome.returned (some PipelineError.download) ∧
      PipelineError.download.Error = "stickers cant be downloaded" ∧
      (processSticker env id w).trace =
        [Action.download ("/tmp/" ++ id ++ "-raw.zip")
          ("http://dl.stickershop.line.naver.jp/products/0/0/1/" ++ id ++
            "/iphone/stickers@2x.zip"),
         Action.run "rm" ["-r", "/tmp/" ++ id, "/tmp/" ++ id ++ "-raw.zip"]] ∧
      (processSticker env id w).world.exports = w.exports) ∧
    (∀ body, env.createFails ("/tmp/" ++ id ++ "-raw.zip") = false →
      env.httpGet ("http://dl.stickershop.line.naver.jp/products/0/0/1/" ++ id ++
        "/iphone/stickers@2x.zip") = HttpResult.response 200 body false →
      ((w.dirs ("/tmp/" ++ id)).isSome = true ∨ env.mkdirFails ("/tmp/" ++ id) = false) →
      (env.fault "unzip" ["/tmp/" ++ id ++ "-raw.zip", "-d", "/tmp/" ++ id] = Fault.pipe ∨
        (env.fault "unzip" ["/tmp/" ++ id ++ "-raw.zip", "-d", "/tmp/" ++ id] = Fault.none ∧
          (env.exitFails "unzip" ["/tmp/" ++ id ++ "-raw.zip", "-d", "/tmp/" ++ id] = true ∨
            ∀ old, (env.unzip body old).1 = false))) →
      (processSticker env id w).outcome = Outcome.returned (some PipelineError.unzip) ∧
      PipelineError.unzip.Error = "stickers cant be unzipped" ∧
      (processSticker env id w).trace =
        [Action.download ("/tmp/" ++ id ++ "-raw.zip")
          ("http://dl.stickershop.line.naver.jp/products/0/0/1/" ++ id ++
            "/iphone/stickers@2x.zip"),
         Action.mkdir ("/tmp/" ++ id),
         Action.exec "unzip" ["/tmp/" ++ id ++ "-raw.zip", "-d", "/tmp/" ++ id],
         Action.run "rm" ["-r", "/tmp/" ++ id, "/tmp/" ++ id ++ "-raw.zip"]] ∧
      (processSticker env id w).world.exports = w.exports) := by
  constructor
  · intro hfail
    have hd : ∃ w1, Download env ("/tmp/" ++ id ++ "-raw.zip")
        ("http://dl.stickershop.line.naver.jp/products/0/0/1/" ++ id ++
          "/iphone/stickers@2x.zip") { world := w, trace := [] } =
        Step.next true { world := w1, trace := [Action.download ("/tmp/" ++ id ++ "-raw.zip")
          ("http://dl.stickershop.line.naver.jp/products/0/0/1/" ++ id ++
            "/iphone/stickers@2x.zip")] } ∧ w1.exports = w.exports := by
      unfold Download
      dsimp only
      rcases hfail with h | h | ⟨st, b, c, h, h2⟩
      · simp [h]
      · by_cases hc : env.createFails ("/tmp/" ++ id ++ "-raw.zip") = true
        · simp [hc]
        · simp [hc, h]
      · by_cases hc : env.createFails ("/tmp/" ++ id ++ "-raw.zip") = true
        · simp [hc]
        · rcases h2 with h2 | h2
          · simp [hc, h, h2]
          · by_cases h3 : st = 200 <;> simp [hc, h, h2, h3]
    obtain ⟨w1, hd, hw1⟩ := hd
    have hp : pipeline env id ("/tmp/" ++ id) ("/tmp/" ++ id ++ "-raw.zip")
        { world := w, trace := [] } = Step.next (some PipelineError.download)
          { world := w1, trace := [Action.download ("/tmp/" ++ id ++ "-raw.zip")
          ("http://dl.stickershop.line.naver.jp/products/0/0/1/" ++ id ++
            "/iphone/stickers@2x.zip")] } := by
      unfold pipeline
      simp only [M.bind_apply, hd]
      rfl
    unfold processSticker
    simp only [hnew, Option.isSome_none, Bool.false_eq_true, if_false, hp, cleanup_trace,
      cleanup_exports, hw1]
    exact ⟨trivial, rfl, rfl, trivial⟩
  · intro body hc hget hmk hunzip
    have hd : ∃ w1, Download env ("/tmp/" ++ id ++ "-raw.zip")
        ("http://dl.stickershop.line.naver.jp/products/0/0/1/" ++ id ++
          "/iphone/stickers@2x.zip") { world := w, trace := [] } =
        Step.next false
          { world := w1,
            trace := [Action.download ("/tmp/" ++ id ++ "-raw.zip")
              ("http://dl.stickershop.line.naver.jp/products/0/0/1/" ++ id ++
                "/iphone/stickers@2x.zip")] } ∧
        w1.exports = w.exports ∧ w1.dirs = w.dirs ∧
        w1.files ("/tmp/" ++ id ++ "-raw.zip") = some body := by
      unfold Download
      simp [hc, hget]
    obtain ⟨w1, hd, he1, hd1, hf1⟩ := hd
    have hm : ∃ r w2, r ≠ MkdirResult.other ∧ osMkdir env ("/tmp/" ++ id)
          { world := w1,
            trace := [Action.download ("/tmp/" ++ id ++ "-raw.zip")
              ("http://dl.stickershop.line.naver.jp/products/0/0/1/" ++ id ++
                "/iphone/stickers@2x.zip")] } =
        Step.next r
          { world := w2,
            trace := [Action.download ("/tmp/" ++ id ++ "-raw.zip")
              ("http://dl.stickershop.line.naver.jp/products/0/0/1/" ++ id ++
                "/iphone/stickers@2x.zip"), Action.mkdir ("/tmp/" ++ id)] } ∧
        w2.exports = w.exports ∧ (∃ old, w2.dirs ("/tmp/" ++ id) = some old) ∧
        w2.files ("/tmp/" ++ id ++ "-raw.zip") = some body := by
      unfold osMkdir
      dsimp only
      rw [hd1]
      cases hdir : w.dirs ("/tmp/" ++ id) with
      | some old =>
        refine ⟨MkdirResult.exist, w1, by decide, ?_, he1, ⟨old, by rw [hd1, hdir]⟩, hf1⟩
        simp
      | none =>
        have hf : env.mkdirFails ("/tmp/" ++ id) = false := by
          rcases hmk with h | h
          · simp [hdir] at h
          · exact h
        refine ⟨MkdirResult.ok,
          World.mk w1.exports w1.files (Function.update w.dirs ("/tmp/" ++ id) (some [])),
          by decide, ?_, he1, ⟨[], by simp⟩, hf1⟩
        simp [hf]
    obtain ⟨r, w2, hr, hm, he2, ⟨old, hd2⟩, hf2⟩ := hm
    have hx : ∃ w3, Exec env "unzip" ["/tmp/" ++ id ++ "-raw.zip", "-d", "/tmp/" ++ id]
          (unzipTool env ("/tmp/" ++ id ++ "-raw.zip") ("/tmp/" ++ id))
          { world := w2,
            trace := [Action.download ("/tmp/" ++ id ++ "-raw.zip")
              ("http://dl.stickershop.line.naver.jp/products/0/0/1/" ++ id ++
                "/iphone/stickers@2x.zip"), Action.mkdir ("/tmp/" ++ id)] } =
        Step.next true
          { world := w3,
            trace := [Action.download ("/tmp/" ++ id ++ "-raw.zip")
              ("http://dl.stickershop.line.naver.jp/products/0/0/1/" ++ id ++
                "/iphone/stickers@2x.zip"), Action.mkdir ("/tmp/" ++ id),
              Action.exec "unzip" ["/tmp/" ++ id ++ "-raw.zip", "-d", "/tmp/" ++ id]] } ∧
          w3.exports = w.exports := by
      unfold Exec execCmd process unzipTool
      rcases hunzip with h | ⟨h, h2⟩
      · simp [h, he2]
      · rcases h2 with h2 | h2
        · simp [h, h2, he2]
        · by_cases h3 : env.exitFails "unzip" ["/tmp/" ++ id ++ "-raw.zip", "-d", "/tmp/" ++ id] = true
          · simp [h, h3, he2]
          · simp [h, h3, h2, hf2, hd2, he2]
    obtain ⟨w3, hx, hw3⟩ := hx
    have hp : pipeline env id ("/tmp/" ++ id) ("/tmp/" ++ id ++ "-raw.zip")
        { world := w, trace := [] } = Step.next (some PipelineError.unzip)
          { world := w3,
            trace := [Action.download ("/tmp/" ++ id ++ "-raw.zip")
              ("http://dl.stickershop.line.naver.jp/products/0/0/1/" ++ id ++
                "/iphone/stickers@2x.zip"), Action.mkdir ("/tmp/" ++ id),
              Action.exec "unzip" ["/tmp/" ++ id ++ "-raw.zip", "-d", "/tmp/" ++ id]] } := by
      unfold pipeline
      simp only [M.bind_apply, hd, hm, hx, Bool.false_eq_true, if_false, M.pure_apply, hr]
      rfl
    unfold processSticker
    simp only [hnew, Option.isSome_none, Bool.false_eq_true, if_false, hp, cleanup_trace,
      cleanup_exports, hw3]
    exact ⟨trivial, rfl, rfl, trivial⟩

/-- The two returned failures on a server that answers 404 and on a damaged bundle. -/
theorem returned_fetch_or_unpack_failure_sample :
    ((processSticker notFoundEnv "1" emptyWorld).outcome
        = Outcome.returned (some PipelineError.download) ∧
      PipelineError.download.Error = "stickers cant be downloaded" ∧
      (processSticker notFoundEnv "1" emptyWorld).trace =
        [Action.download ("/tmp/" ++ "1" ++ "-raw.zip")
          ("http://dl.stickershop.line.naver.jp/products/0/0/1/" ++ "1" ++
            "/iphone/stickers@2x.zip"),
         Action.run "rm" ["-r", "/tmp/" ++ "1", "/tmp/" ++ "1" ++ "-raw.zip"]] ∧
      (processSticker notFoundEnv "1" emptyWorld).world.exports = emptyWorld.exports) ∧
    ((processSticker corruptEnv "1" emptyWorld).outcome
        = Outcome.returned (some PipelineError.unzip) ∧
      PipelineError.unzip.Error = "stickers cant be unzipped" ∧
      (processSticker corruptEnv "1" emptyWorld).trace =
        [Action.download ("/tmp/" ++ "1" ++ "-raw.zip")
          ("http://dl.stickershop.line.naver.jp/products/0/0/1/" ++ "1" ++
            "/iphone/stickers@2x.zip"),
         Action.mkdir ("/tmp/" ++ "1"),
         Action.exec "unzip" ["/tmp/" ++ "1" ++ "-raw.zip", "-d", "/tmp/" ++ "1"],
         Action.run "rm" ["-r", "/tmp/" ++ "1", "/tmp/" ++ "1" ++ "-raw.zip"]] ∧
      (processSticker corruptEnv "1" emptyWorld).world.exports = emptyWorld.exports) :=
  ⟨(returned_fetch_or_unpack_failure notFoundEnv "1" emptyWorld rfl).1
      (Or.inr (Or.inr ⟨404, "", false, rfl, Or.inl (by decide)⟩)),
   (returned_fetch_or_unpack_failure corruptEnv "1" emptyWorld rfl).2 "PK" rfl rfl
      (Or.inr rfl) (Or.inr ⟨rfl, Or.inr (fun _ => rfl)⟩)⟩

/-- C7 (the code departs from the claim). For identifier `1` without export archive: a
server that answers 404 gives the error "stickers cant be downloaded", and a damaged bundle,
on which `unzip` exits with a non-zero status, gives "stickers cant be unzipped"; in both
runs nothing but the clean-up follows and no archive is written. But when the fetch succeeds
and the unpacking fails because `unzip` cannot be started, or because its standard error
cannot be read, `execCmd` ends the process with `log.Fatalf`: `processSticker` returns no
error at all, and the raw bundle file it fetched is left behind. -/
theorem processSticker_unpack_fault_exits :
    ((processSticker notFoundEnv "1" emptyWorld).outcome
        = Outcome.returned (some PipelineError.download) ∧
      (processSticker notFoundEnv "1" emptyWorld).trace =
        [Action.download "/tmp/1-raw.zip"
          "http://dl.stickershop.line.naver.jp/products/0/0/1/1/iphone/stickers@2x.zip",
         Action.run "rm" ["-r", "/tmp/1", "/tmp/1-raw.zip"]] ∧
      (processSticker notFoundEnv "1" emptyWorld).world.exports
        "/tmp/line-stickers-export/1.zip" = none) ∧
    ((processSticker corruptEnv "1" emptyWorld).outcome
        = Outcome.returned (some PipelineError.unzip) ∧
      (processSticker corruptEnv "1" emptyWorld).trace =
        [Action.download "/tmp/1-raw.zip"
          "http://dl.stickershop.line.naver.jp/products/0/0/1/1/iphone/stickers@2x.zip",
         Action.mkdir "/tmp/1",
         Action.exec "unzip" ["/tmp/1-raw.zip", "-d", "/tmp/1"],
         Action.run "rm" ["-r", "/tmp/1", "/tmp/1-raw.zip"]] ∧
      (processSticker corruptEnv "1" emptyWorld).world.exports
        "/tmp/line-stickers-export/1.zip" = none) ∧
    ((processSticker noUnzipEnv "1" emptyWorld).outcome = Outcome.exited ∧
      (processSticker noUnzipEnv "1" emptyWorld).outcome
        ≠ Outcome.returned (some PipelineError.unzip) ∧
      (processSticker noUnzipEnv "1" emptyWorld).world.files "/tmp/1-raw.zip" = some "PK" ∧
      (processSticker noUnzipEnv "1" emptyWorld).world.exports
        "/tmp/line-stickers-export/1.zip" = none) ∧
    ((processSticker unzipUnreadableEnv "1" emptyWorld).outcome = Outcome.exited ∧
      (processSticker unzipUnreadableEnv "1" emptyWorld).outcome
        ≠ Outcome.returned (some PipelineError.unzip) ∧
      (processSticker unzipUnreadableEnv "1" emptyWorld).trace =
        [Action.download "/tmp/1-raw.zip"
          "http://dl.stickershop.line.naver.jp/products/0/0/1/1/iphone/stickers@2x.zip",
         Action.mkdir "/tmp/1",
         Action.exec "unzip" ["/tmp/1-raw.zip", "-d", "/tmp/1"]] ∧
      (processSticker unzipUnreadableEnv "1" emptyWorld).world.files "/tmp/1-raw.zip"
        = some "PK" ∧
      (processSticker unzipUnreadableEnv "1" emptyWorld).world.exports
        "/tmp/line-stickers-export/1.zip" = none) := by
  decide

/-- C8 (the code departs from the claim). No run of `processSticker`, whatever the
environment, returns the error "stickers cant be zipped". When every stage up to batching
succeeds and `zip` exits with a non-zero status, line 260 dereferences a nil error and the
function panics. -/
theorem processSticker_zip_failure_panics :
    (∀ (env : Env) (id : String) (w : World),
      (processSticker env id w).outcome ≠ Outcome.returned (some PipelineError.zip)) ∧
    (processSticker zipFailsEnv "1" emptyWorld).outcome = Outcome.panicked ∧
    (processSticker zipFailsEnv "1" emptyWorld).trace =
      [Action.download "/tmp/1-raw.zip"
        "http://dl.stickershop.line.naver.jp/products/0/0/1/1/iphone/stickers@2x.zip",
       Action.mkdir "/tmp/1",
       Action.exec "unzip" ["/tmp/1-raw.zip", "-d", "/tmp/1"],
       Action.exec "rm" ["/tmp/1/2_key@2x.png", "/tmp/1/productInfo.meta",
         "/tmp/1/tab_off@2x.png", "/tmp/1/tab_on@2x.png"],
       Action.mkdir "/tmp/1/Foo",
       Action.exec "mv" ["/tmp/1/1@2x.png", "/tmp/1/2@2x.png", "/tmp/1/3@2x.png", "/tmp/1/Foo"],
       Action.execDir "/tmp/1" "zip" ["/tmp/line-stickers-export/1", ".", "-r"],
       Action.run "rm" ["-r", "/tmp/1", "/tmp/1-raw.zip"]] :=
  ⟨processSticker_never_returns_zip_error, by decide, by decide⟩

/-- C9 (the code departs from the claim). The text `https://lineXme/S/sticker/1/` holds
neither URL shape, yet `findStickerID` returns `1`: the dots of the patterns are not escaped
and match any character. On the two URL shapes themselves it returns the identifier. -/
theorem findStickerID_wildcard_dot :
    containsShape "https://line.me/S/sticker/" "https://lineXme/S/sticker/1/" = false ∧
    containsShape "https://store.line.me/stickershop/product/"
      "https://lineXme/S/sticker/1/" = false ∧
    findStickerID (NewBot "host") "https://lineXme/S/sticker/1/" = "1" ∧
    findStickerID (NewBot "host") "https://line.me/S/sticker/1234/" = "1234" ∧
    findStickerID (NewBot "host") "https://store.line.me/stickershop/product/56/" = "56" ∧
    findStickerID (NewBot "host") "hello" = "" := by
  decide

/-- C10 (the code departs from the claim). A bundle that downloads and unpacks, with both
tab icons and a sticker but without `productInfo.meta`, in an environment where nothing
else fails: the `rm` of the content filter is given the missing file, exits with a non-zero
status, and `processSticker` returns "internal error"; no batch directory is made, `zip`
is not run and no export archive is written. -/
theorem processSticker_missing_metadata_aborts :
    (processSticker (sampleEnv noMetaBundle) "1" emptyWorld).outcome
      = Outcome.returned (some PipelineError.internal) ∧
    (processSticker (sampleEnv noMetaBundle) "1" emptyWorld).trace =
      [Action.download "/tmp/1-raw.zip"
        "http://dl.stickershop.line.naver.jp/products/0/0/1/1/iphone/stickers@2x.zip",
       Action.mkdir "/tmp/1",
       Action.exec "unzip" ["/tmp/1-raw.zip", "-d", "/tmp/1"],
       Action.exec "rm" ["/tmp/1/productInfo.meta", "/tmp/1/tab_off@2x.png",
         "/tmp/1/tab_on@2x.png"],
       Action.run "rm" ["-r", "/tmp/1", "/tmp/1-raw.zip"]] ∧
    (processSticker (sampleEnv noMetaBundle) "1" emptyWorld).world.exports
      "/tmp/line-stickers-export/1.zip" = none := by
  decide

end LineSticker
